import Mathlib

/-!
Verification of the realtime WebSocket connection client
(`src/GameFrontend/src/api/wsClient.js`).

The module-level mutable state of the JS client is embedded as an explicit
state record (`WsClient.ClientState`); every module function becomes a pure
Lean function from state to state paired with the list of events it emits
through the module's emitter.  Timer-driven and transport-driven callbacks
become explicit steps (`WsClient.Step`) on that state.  URLs are embedded as
character lists so that the string normalisation in
`resolveWsBaseUrlFromEnv` can be reasoned about; frame payloads stay opaque
`String`s.  Numeric jitter arithmetic (JS doubles over small integers) is
embedded over `ℚ`, with `Math.round` as Mathlib's `round` (both are
`⌊x + 1/2⌋`).
-/

namespace WsClient

/-! ## Characters and URL helpers (wsClient.js lines 44-119) -/

abbrev Chars := List Char

/-- ASCII whitespace recognised by the model of `String.prototype.trim`. -/
def isSpaceChar (c : Char) : Bool :=
  c == ' ' || c == '\t' || c == '\n' || c == '\r'

/-- Model of JS `String.prototype.trim` on character lists. -/
def trimChars (s : Chars) : Chars :=
  ((s.dropWhile isSpaceChar).reverse.dropWhile isSpaceChar).reverse

/-- Model of `.replace(/\/+$/, "")`: strip all trailing slashes. -/
def stripTrailingSlashes (s : Chars) : Chars :=
  (s.reverse.dropWhile (fun c => c == '/')).reverse

/-- Model of JS `String.prototype.startsWith`: is the first list a prefix
of the second? -/
def charsStartsWith : Chars → Chars → Bool
  | [], _ => true
  | _ :: _, [] => false
  | p :: ps, c :: cs => p == c && charsStartsWith ps cs

/-- A character matched by the class `[\w.-]` of the bare host:port regex. -/
def isWordDotDash (c : Char) : Bool :=
  c.isAlphanum || c == '_' || c == '.' || c == '-'

/-- Model of the test `/^[\w.-]+(?::\d+)?$/i.test(raw)` (line 78): one or
more word/dot/dash characters, optionally followed by a colon and one or
more digits. -/
def isBareHostPort (s : Chars) : Bool :=
  let host := s.takeWhile isWordDotDash
  let rest := s.dropWhile isWordDotDash
  !host.isEmpty &&
    (rest.isEmpty ||
      (match rest with
       | ':' :: ds => !ds.isEmpty && ds.all Char.isDigit
       | _ => false))

/-- Window location, as read by the fallback branch of
`resolveWsBaseUrlFromEnv` (lines 88-92). -/
structure Loc where
  protocol : Chars
  host : Chars
deriving DecidableEq

/-- The branches of `resolveWsBaseUrlFromEnv` (lines 68-95) applied to the
already-trimmed value `raw` of `REACT_APP_WS_URL`. -/
def resolveFromRaw (raw : Chars) (wloc : Option Loc) : Chars :=
  if raw ≠ [] then
    if charsStartsWith "ws://".data raw || charsStartsWith "wss://".data raw then
      stripTrailingSlashes raw
    else if charsStartsWith "http://".data raw then
      stripTrailingSlashes ("ws://".data ++ raw.drop 7)
    else if charsStartsWith "https://".data raw then
      stripTrailingSlashes ("wss://".data ++ raw.drop 8)
    else if isBareHostPort raw then
      stripTrailingSlashes ("ws://".data ++ raw)
    else stripTrailingSlashes raw
  else
    match wloc with
    | some loc =>
        if loc.protocol ≠ [] then
          let proto := if loc.protocol = "https:".data then "wss:".data else "ws:".data
          if loc.host ≠ [] then stripTrailingSlashes (proto ++ "//".data ++ loc.host)
          else []
        else []
    | none => []

/-- `resolveWsBaseUrlFromEnv` (lines 68-95): trims the env var, then picks a
branch; falls back to inferring from `window.location`. -/
def resolveWsBaseUrlFromEnv (envUrl : Chars) (wloc : Option Loc) : Chars :=
  resolveFromRaw (trimChars envUrl) wloc

/-- `joinUrl` (lines 97-103). -/
def joinUrl (base path : Chars) : Chars :=
  let b := stripTrailingSlashes (trimChars base)
  let p := trimChars path
  if b = [] then []
  else if p = [] then b
  else if charsStartsWith "/".data p then b ++ p
  else b ++ "/".data ++ p

/-! ## Reconnect backoff arithmetic (wsClient.js lines 113-119, 366-368)

The involved JS doubles are small integers (or the literal `0.25`), so the
arithmetic is embedded over `ℚ`; JS `Math.round` is `⌊x + 1/2⌋`, which is
Mathlib's `round`.  `Math.random()` becomes a parameter `rand ∈ [0, 1)`. -/

def reconnectInitialMs : ℕ := 500
def reconnectMaxMs : ℕ := 20000
def reconnectJitterRatio : ℚ := 1 / 4
def heartbeatIntervalMs : ℕ := 15000
def staleThresholdMs : ℕ := 45000
def maxQueueSize : ℕ := 200

/-- `jitterDelay(ms, jitterRatio)` (lines 113-119).  `Number.isFinite` is
always true over `ℚ`, so the guard reduces to the `[0,1]` clamp. -/
def jitterDelay (ms ratio rand : ℚ) : ℤ :=
  let r := max 0 (min 1 ratio)
  let delta := ms * r
  let lo := ms - delta
  let hi := ms + delta
  max 0 (round (lo + rand * (hi - lo)))

/-- `base = Math.min(reconnectMaxMs, reconnectInitialMs * 2^attempt)`
(line 367 of `scheduleReconnect`). -/
def reconnectBase (attempt : ℕ) : ℕ :=
  min reconnectMaxMs (reconnectInitialMs * 2 ^ attempt)

/-! ## Event registry dispatch (`createEmitter().emit`, lines 151-165)

A registry is the set of subscribed handlers of one event name, embedded as
a list of handler identifiers.  A handler's behaviour is a function from the
current registry to the updated registry (it may subscribe or unsubscribe
anybody) together with an optional raised exception.  `emit` copies the set
(`[...s]`) before iterating, and invokes each handler inside `try`/`catch`;
a caught exception is logged (collected in the third component) and the
iteration continues. -/

abbrev Registry := List ℕ

/-- One handler invocation as the dispatcher sees it: new registry state and
an optionally raised exception (`ε`). -/
abbrev HandlerBehavior (ε : Type) := ℕ → Registry → Registry × Option ε

/-- The `forEach` loop of `emit` over the snapshot: returns the final
registry, the handlers invoked in order, and the caught exceptions. -/
def emitGo {ε : Type} (behav : HandlerBehavior ε) :
    List ℕ → Registry → Registry × List ℕ × List ε
  | [], reg => (reg, [], [])
  | h :: rest, reg =>
      let step := behav h reg
      let next := emitGo behav rest step.1
      (next.1, h :: next.2.1,
        match step.2 with
        | some e => e :: next.2.2
        | none => next.2.2)

/-- `emit` (lines 151-165): returns early when the handler set is missing or
empty, otherwise iterates a snapshot `[...s]` of the set taken before any
handler runs. -/
def emit {ε : Type} (behav : HandlerBehavior ε) (reg : Registry) :
    Registry × List ℕ × List ε :=
  if reg.isEmpty then (reg, [], [])
  else emitGo behav reg reg

/-! ## Connection manager state (wsClient.js lines 211-237)

The module-level mutable variables become one record.  `connectOptions`
keeps only the fields the embedded behaviour reads (`path`,
`autoReconnect`; `protocols` is never branched on).  Timers are embedded as
armed/disarmed flags: firing an armed timer is an explicit `Step`. -/

/-- The error kinds of §7 of the design, used to tag `error` events. -/
inductive ErrKind
  | constructionFailure
  | transportError
  | staleConnection
  | sendFailure
  | serializeFailure
deriving DecidableEq

/-- `ConnectionState` (line 18). `open` and `error` are spelled `opened`
and `errored` because of Lean keywords. -/
inductive ConnState
  | idle | mock | connecting | opened | closing | closed | errored
deriving DecidableEq

/-- An event emitted through the module emitter, with the payload fields
the claims observe. -/
inductive Ev
  | evOpen (isMock : Bool)
  | evClose (code : ℕ) (isMock : Bool)
  | evError (kind : ErrKind) (isMock : Bool)
  | evMessage (data : String) (isMock : Bool)
  | evStatus (st : ConnState) (isMock : Bool)
deriving DecidableEq

/-- The real `WebSocket` transport as the client observes it:
`readyState` (0 CONNECTING, 1 OPEN, 2 CLOSING, 3 CLOSED), the frames the
transport accepted in order, and whether its `send` raises (environment
behaviour injected for failure scenarios). -/
structure RealSock where
  readyState : ℕ
  sent : List String
  sendThrows : Bool
deriving DecidableEq

/-- The closure state of `createMockSocket` (lines 173-209): `open`,
`closed`, whether the 10ms open `setTimeout` is still pending, and the
payloads of armed echo `setTimeout`s in FIFO order. -/
structure MockSock where
  mopen : Bool
  mclosed : Bool
  openTimer : Bool
  pendingEchoes : List String
deriving DecidableEq

/-- The mock's `readyState` getter (lines 202-207). -/
def mockReadyState (m : MockSock) : ℕ :=
  if m.mclosed then 3 else if m.mopen then 1 else 0

/-- The `ConnectOptions` fields the embedded behaviour reads. -/
structure ConnectOptions where
  path : Chars
  autoReconnect : Option Bool
deriving DecidableEq

/-- The ambient JS environment: env var, window location, WebSocket
support, and injected failure behaviour of the real transport. -/
structure JsEnv where
  envUrl : Chars
  wloc : Option Loc
  hasWS : Bool
  wsCtorThrows : Bool
  sendThrows : Bool
deriving DecidableEq

/-- The module-level mutable state (lines 211-237). -/
structure ClientState where
  ws : Option RealSock
  mockWs : Option MockSock
  state : ConnState
  opts : ConnectOptions
  lastUrl : Chars
  shouldReconnect : Bool
  reconnectAttempt : ℕ
  reconnectTimer : Bool
  heartbeatTimer : Bool
  lastInboundAt : ℕ
  lastOpenAt : ℕ
  explicitlyDisconnected : Bool
  outboundQueue : List String
deriving DecidableEq

/-- The state at module load (lines 218-237). -/
def initialState : ClientState where
  ws := none
  mockWs := none
  state := .idle
  opts := ⟨[], none⟩
  lastUrl := []
  shouldReconnect := true
  reconnectAttempt := 0
  reconnectTimer := false
  heartbeatTimer := false
  lastInboundAt := 0
  lastOpenAt := 0
  explicitlyDisconnected := false
  outboundQueue := []

/-! ## Outbound queue and frame sending (lines 283-312) -/

/-- The queueing arm of `sendFrame` (lines 289-295): when the queue is at
or above capacity, keep only the newest `Math.floor(maxQueueSize * 0.8)`
entries (the float product `200 * 0.8` rounds to exactly `160.0`), then
append the new frame. -/
def enqueueFrame (q : List String) (frame : String) : List String :=
  let q' := if maxQueueSize ≤ q.length
    then q.drop (q.length - maxQueueSize * 8 / 10)
    else q
  q' ++ [frame]

/-- The open test of `sendFrame` (lines 286-287). -/
def isOpenForSend (st : ClientState) : Bool :=
  (match st.ws with
   | some w => w.readyState == 1
   | none => false) ||
  (match st.mockWs with
   | some m => mockReadyState m == 1
   | none => false)

/-- `sendFrame` (lines 283-305).  When open, `ws.send`/`mockWs.send` runs
inside `try`/`catch`; a raised transmission exception is caught, the frame
is pushed back on the queue (without the capacity trim) and an `error`
event is emitted.  The mock's `send` arms an echo timeout when the mock is
open and does nothing otherwise. -/
def sendFrame (frame : String) (st : ClientState) : ClientState × List Ev :=
  if !isOpenForSend st then
    ({ st with outboundQueue := enqueueFrame st.outboundQueue frame }, [])
  else
    match st.ws with
    | some w =>
        if w.sendThrows then
          ({ st with outboundQueue := st.outboundQueue ++ [frame] },
           [Ev.evError .sendFailure st.mockWs.isSome])
        else
          ({ st with ws := some { w with sent := w.sent ++ [frame] } }, [])
    | none =>
        match st.mockWs with
        | some m =>
            if m.mopen && !m.mclosed then
              ({ st with
                  mockWs := some { m with pendingEchoes := m.pendingEchoes ++ [frame] } },
               [])
            else (st, [])
        | none => (st, [])

/-- A `forEach` of `sendFrame` over a list of frames, threading state and
concatenating emitted events (used by `flushQueue`, and to model a batch of
caller `send` invocations). -/
def sendFrames : List String → ClientState → ClientState × List Ev
  | [], st => (st, [])
  | f :: rest, st =>
      let r1 := sendFrame f st
      let r2 := sendFrames rest r1.1
      (r2.1, r1.2 ++ r2.2)

/-- `flushQueue` (lines 307-312): grab the queue, clear it, then re-send
every grabbed frame in order. -/
def flushQueue (st : ClientState) : ClientState × List Ev :=
  if st.outboundQueue.isEmpty then (st, [])
  else sendFrames st.outboundQueue { st with outboundQueue := [] }

/-! ## Timers and lifecycle helpers (lines 314-399) -/

/-- `clearReconnectTimer` (lines 314-319). -/
def clearReconnectTimer (st : ClientState) : ClientState :=
  { st with reconnectTimer := false }

/-- `clearHeartbeatTimer` (lines 321-326). -/
def clearHeartbeatTimer (st : ClientState) : ClientState :=
  { st with heartbeatTimer := false }

/-- `startHeartbeat` (lines 328-333): clears any prior interval, resets
`lastInboundAt` to now and arms the interval (ticks are `Step.heartbeat`). -/
def startHeartbeat (t : ℕ) (st : ClientState) : ClientState :=
  { st with
      heartbeatTimer := true
      lastInboundAt := t }

/-- `scheduleReconnect` (lines 361-376): skipped entirely when
`shouldReconnect` is off or the explicit-disconnect flag is set; otherwise
cancels any pending timer and arms a fresh one. -/
def scheduleReconnect (st : ClientState) : ClientState :=
  if !st.shouldReconnect || st.explicitlyDisconnected then st
  else { st with reconnectTimer := true }

/-- The mock's `close` (lines 186-191): idempotent; cancels the pending
open timeout; emits a mock `close` event only if it had opened.  The armed
echo timeouts keep existing in JS but their callbacks check `closed` and do
nothing, so the model drops them. -/
def mockClose (m : MockSock) : MockSock × List Ev :=
  if m.mclosed then (m, [])
  else
    ({ m with
        mclosed := true
        mopen := false
        openTimer := false
        pendingEchoes := [] },
     if m.mopen then [Ev.evClose 1000 true] else [])

/-- `cleanupSocketRefs` (lines 378-399): detaches the real socket's
callbacks and drops the reference (so no further `ws` callback step can
observe it), and closes and drops the mock. -/
def cleanupSocketRefs (st : ClientState) : ClientState × List Ev :=
  match st.mockWs with
  | some m =>
      let r := mockClose m
      ({ st with
          ws := none
          mockWs := none }, r.2)
  | none => ({ st with ws := none }, [])

/-! ## Real transport callbacks (lines 453-523) and heartbeat tick

Callback steps are guarded on the socket reference still being present
(after `cleanupSocketRefs` the handlers are nulled, so the callbacks are
never observed) and on the transport's `readyState` being appropriate for
the browser to fire that callback. -/

/-- `ws.onopen` (lines 453-464): the transport becomes OPEN; state `open`;
attempt counter resets; heartbeat starts; the queue is flushed. -/
def wsOnOpen (t : ℕ) (st : ClientState) : ClientState × List Ev :=
  match st.ws with
  | some w =>
      if w.readyState == 0 then
        let st1 : ClientState :=
          { st with
              ws := some { w with readyState := 1 }
              state := .opened
              reconnectAttempt := 0
              lastOpenAt := t
              lastInboundAt := t }
        let st2 := startHeartbeat t st1
        let r := flushQueue st2
        (r.1, [Ev.evStatus .opened false, Ev.evOpen false] ++ r.2)
      else (st, [])
  | none => (st, [])

/-- `ws.onclose` (lines 466-485): stops the heartbeat, settles `closed`,
and schedules a reconnect unless explicitly disconnected or auto-reconnect
is off. -/
def wsOnClose (code : ℕ) (st : ClientState) : ClientState × List Ev :=
  match st.ws with
  | some w =>
      if w.readyState == 3 then (st, [])
      else
        let st1 := clearHeartbeatTimer
          { st with ws := some { w with readyState := 3 } }
        let isExplicit := st1.explicitlyDisconnected
        let st2 : ClientState := { st1 with state := .closed }
        let st3 := if !isExplicit && st2.shouldReconnect
          then scheduleReconnect st2 else st2
        (st3, [Ev.evStatus .closed false, Ev.evClose code false])
  | none => (st, [])

/-- `ws.onerror` (lines 487-494): state `error`, emits the error, and lets
`scheduleReconnect` decide (it re-checks the flags itself). -/
def wsOnError (st : ClientState) : ClientState × List Ev :=
  match st.ws with
  | some _ =>
      let st1 : ClientState := { st with state := .errored }
      let st2 := scheduleReconnect st1
      (st2, [Ev.evStatus .errored false, Ev.evError .transportError false])
  | none => (st, [])

/-- `ws.onmessage` (lines 496-523) restricted to string data: records the
inbound time and emits `message`.  The JSON envelope demultiplexing into a
second custom event is outside every claim and is omitted from the model. -/
def wsOnMessage (data : String) (t : ℕ) (st : ClientState) : ClientState × List Ev :=
  match st.ws with
  | some w =>
      if w.readyState == 1 then
        ({ st with lastInboundAt := t }, [Ev.evMessage data false])
      else (st, [])
  | none => (st, [])

/-- The heartbeat probe frame `JSON.stringify({type:"ping", t})`
(line 342). -/
def pingFrame (t : ℕ) : String :=
  "\x7b\"type\":\"ping\",\"t\":" ++ toString t ++ "\x7d"

/-- One tick of the heartbeat interval (lines 333-358): only while the real
transport is OPEN, send a ping probe, and if no inbound data arrived within
`staleThresholdMs` emit one staleness `error` and force `ws.close(4000)` —
which synchronously moves `readyState` to CLOSING; the browser's later
`close` event is a separate `Step.wsClose`. -/
def heartbeatTick (t : ℕ) (st : ClientState) : ClientState × List Ev :=
  if !st.heartbeatTimer then (st, [])
  else
    let isOpen := match st.ws with
      | some w => w.readyState == 1
      | none => false
    if isOpen then
      let staleFor := t - st.lastInboundAt
      let r := sendFrame (pingFrame t) st
      if staleThresholdMs < staleFor then
        let st2 := match r.1.ws with
          | some w =>
              { r.1 with
                  ws := some { w with
                    readyState := if w.readyState ≤ 1 then 2 else w.readyState } }
          | none => r.1
        (st2, r.2 ++ [Ev.evError .staleConnection false])
      else r
    else (st, [])

/-- The mock's 10ms open timeout firing (lines 179-183): `if (closed)
return; open = true; emit open {isMock:true}`.  Note: this does not flush
the outbound queue and does not change the manager state. -/
def mockOpenFire (st : ClientState) : ClientState × List Ev :=
  match st.mockWs with
  | some m =>
      if m.openTimer && !m.mclosed then
        ({ st with mockWs := some { m with mopen := true, openTimer := false } },
         [Ev.evOpen true])
      else (st, [])
  | none => (st, [])

/-- One armed mock echo timeout firing (lines 197-200): emits the echoed
`message` only if the mock is still open. -/
def mockEchoFire (st : ClientState) : ClientState × List Ev :=
  match st.mockWs with
  | some m =>
      match m.pendingEchoes with
      | [] => (st, [])
      | p :: rest =>
          let st1 : ClientState :=
            { st with mockWs := some { m with pendingEchoes := rest } }
          if m.mopen && !m.mclosed then (st1, [Ev.evMessage p true])
          else (st1, [])
  | none => (st, [])

/-! ## Connecting, disconnecting, sending (lines 401-603) -/

/-- `internalConnect` (lines 401-524).  Branches exactly as the source:
mock mode whenever the env URL is unset or no real transport is usable;
otherwise a `connecting` real transport (whose construction may raise,
driving the `error`-state branch).  The middle `!hasWebSocketSupport()`
branch of the source is unreachable (the mock branch already covers it) but
is kept for fidelity. -/
def internalConnect (env : JsEnv) (options : ConnectOptions)
    (st : ClientState) : ClientState × List Ev :=
  let st := { st with
      opts := options
      explicitlyDisconnected := false }
  let baseUrl := resolveWsBaseUrlFromEnv env.envUrl env.wloc
  let url := joinUrl baseUrl options.path
  let st := { st with lastUrl := url }
  let hasConfiguredUrl := trimChars env.envUrl ≠ []
  let canUseReal := env.hasWS && url ≠ []
  if !canUseReal || !hasConfiguredUrl then
    let st1 : ClientState := { st with
        state := .mock
        shouldReconnect := false
        reconnectAttempt := 0
        reconnectTimer := false
        heartbeatTimer := false }
    let r := cleanupSocketRefs st1
    let st2 : ClientState := { r.1 with
        mockWs := some ⟨false, false, true, []⟩ }
    (st2, r.2 ++ [Ev.evStatus .mock true])
  else if !env.hasWS then
    ({ st with
        state := .idle
        shouldReconnect := false }, [Ev.evStatus .idle false])
  else
    let st1 : ClientState := { st with
        shouldReconnect := options.autoReconnect.getD true
        state := .connecting }
    let r := cleanupSocketRefs st1
    let st2 := clearHeartbeatTimer r.1
    if env.wsCtorThrows then
      let st3 : ClientState := { st2 with state := .errored }
      let st4 := scheduleReconnect st3
      (st4, [Ev.evStatus .connecting false] ++ r.2 ++
        [Ev.evStatus .errored false, Ev.evError .constructionFailure false])
    else
      ({ st2 with ws := some ⟨0, [], env.sendThrows⟩ },
       [Ev.evStatus .connecting false] ++ r.2)

/-- The reconnect timer firing (lines 370-375): consumes the timer,
increments the attempt counter, and re-runs `internalConnect` with the
stored options. -/
def fireReconnect (env : JsEnv) (st : ClientState) : ClientState × List Ev :=
  if st.reconnectTimer then
    internalConnect env st.opts
      { st with
          reconnectTimer := false
          reconnectAttempt := st.reconnectAttempt + 1 }
  else (st, [])

/-- Public `connect` (lines 534-540): clears any pending reconnect timer,
clears the explicit-disconnect flag, and runs `internalConnect`. -/
def connect (env : JsEnv) (options : ConnectOptions)
    (st : ClientState) : ClientState × List Ev :=
  internalConnect env options
    { (clearReconnectTimer st) with explicitlyDisconnected := false }

/-- Public `disconnect` (lines 547-575): sets the explicit-disconnect flag,
disables and cancels the reconnect timer and the heartbeat, moves through
`closing`, closes the real transport (its later `close` callback is never
observed because `cleanupSocketRefs` nulls the handlers) and the mock, and
settles to `closed`. -/
def disconnect (st : ClientState) : ClientState × List Ev :=
  let st1 : ClientState := { st with
      explicitlyDisconnected := true
      shouldReconnect := false
      reconnectTimer := false
      heartbeatTimer := false
      state := .closing }
  let ev1 := [Ev.evStatus .closing st1.mockWs.isSome]
  let st2 : ClientState := match st1.ws with
    | some w =>
        { st1 with ws := some { w with
            readyState := if w.readyState ≤ 1 then 2 else w.readyState } }
    | none => st1
  let r3 : ClientState × List Ev := match st2.mockWs with
    | some m =>
        let r := mockClose m
        ({ st2 with mockWs := some r.1 }, r.2)
    | none => (st2, [])
  let r4 := cleanupSocketRefs r3.1
  let st5 : ClientState := { r4.1 with state := .closed }
  (st5, ev1 ++ r3.2 ++ r4.2 ++ [Ev.evStatus .closed st5.mockWs.isSome])

/-- A caller-supplied message for the public `send`: `null`/`undefined`, a
string, or an object embedded by the outcome of `JSON.stringify` on it
(`Except` carries a raised serialization exception). -/
inductive Msg
  | nullish
  | str (s : String)
  | obj (json : Except Unit String)

/-- Public `send` (lines 587-603): strings go to `sendFrame` as-is; objects
are serialized inside `try`/`catch` — a raised serialization exception is
caught and converted to an `error` event.  Every raising primitive in the
body is matched on, so the embedded function is total: `send` never throws
to the caller. -/
def send (m : Msg) (st : ClientState) : ClientState × List Ev :=
  match m with
  | .nullish => (st, [])
  | .str s => sendFrame s st
  | .obj (.ok s) => sendFrame s st
  | .obj (.error _) =>
      (st, [Ev.evError .serializeFailure st.mockWs.isSome])

/-! ## Internal steps

Everything that can run without a new public API call: a timer firing or a
transport callback.  Each step is a no-op when its trigger is not armed /
its socket is gone. -/

/-- An internal event-loop turn. -/
inductive Step
  | fireReconnect (env : JsEnv)
  | heartbeat (t : ℕ)
  | mockOpen
  | mockEcho
  | wsOpen (t : ℕ)
  | wsClose (code : ℕ)
  | wsError
  | wsMessage (data : String) (t : ℕ)

/-- Run one internal step. -/
def runStep : Step → ClientState → ClientState × List Ev
  | .fireReconnect env, st => fireReconnect env st
  | .heartbeat t, st => heartbeatTick t st
  | .mockOpen, st => mockOpenFire st
  | .mockEcho, st => mockEchoFire st
  | .wsOpen t, st => wsOnOpen t st
  | .wsClose code, st => wsOnClose code st
  | .wsError, st => wsOnError st
  | .wsMessage data t, st => wsOnMessage data t st

/-- Run a sequence of internal steps, concatenating emitted events. -/
def runSteps : List Step → ClientState → ClientState × List Ev
  | [], st => (st, [])
  | s :: rest, st =>
      let r1 := runStep s st
      let r2 := runSteps rest r1.1
      (r2.1, r1.2 ++ r2.2)

/-- Is an event an `open` event (mock or real)? -/
def Ev.isOpenEv : Ev → Bool
  | .evOpen _ => true
  | _ => false

/-- Is an event a `message` event? -/
def Ev.isMessageEv : Ev → Bool
  | .evMessage _ _ => true
  | _ => false

/-- Is an event a staleness `error` event? -/
def Ev.isStaleErrorEv : Ev → Bool
  | .evError .staleConnection _ => true
  | _ => false

/-! ## Concrete scenarios and state builders used by the claims -/

/-- A state in which every internal step is a no-op: no timer armed, no
real socket, and any mock has neither a pending open timeout nor pending
echoes. -/
def Quiescent (st : ClientState) : Prop :=
  st.reconnectTimer = false ∧ st.heartbeatTimer = false ∧ st.ws = none ∧
    ∀ m, st.mockWs = some m → m.openTimer = false ∧ m.pendingEchoes = []

/-- A freshly `connecting` real transport holding previously transmitted
frames `s0`, with queue `q0` (the state after `internalConnect` resolved a
real destination, up to bookkeeping fields no claim observes). -/
def connectingState (s0 q0 : List String) : ClientState :=
  { initialState with
      ws := some ⟨0, s0, false⟩
      state := .connecting
      outboundQueue := q0 }

/-- The state reached from `connectingState s0 Q` when the transport opens
at time `t`, just before `flushQueue` runs (used to phrase the flush-on-open
claim). -/
def openedState (s0 Q : List String) (t : ℕ) : ClientState :=
  { initialState with
      ws := some ⟨1, s0, false⟩
      state := .opened
      outboundQueue := Q
      heartbeatTimer := true
      lastInboundAt := t
      lastOpenAt := t }

/-- Environment of the C1 scenario: no `REACT_APP_WS_URL`, no usable page
origin, WebSocket support present. -/
def c1Env : JsEnv := ⟨[], none, true, false, false⟩

/-- C1 scenario: `connect()` with no destination... -/
def c1State0 : ClientState := (connect c1Env ⟨[], none⟩ initialState).1

/-- ...then `send("a")` before the mock opens... -/
def c1State1 : ClientState := (send (.str "a") c1State0).1

/-- ...then `send("b")`, still before the mock opens. -/
def c1State2 : ClientState := (send (.str "b") c1State1).1

/-- ...then the mock open timeout fires, followed by two further event-loop
turns in which any armed echo timeout would fire. -/
def c1Run : ClientState × List Ev :=
  runSteps [.mockOpen, .mockEcho, .mockEcho] c1State2

/-- Environment of the C3 counterexample: a configured destination whose
transport accepts the connection but whose `send` always raises. -/
def c3Env : JsEnv := ⟨"ws://h".data, none, true, false, true⟩

/-- C3 counterexample: connect... -/
def c3Connected : ClientState := (connect c3Env ⟨[], none⟩ initialState).1

/-- ...queue `maxQueueSize` frames while still connecting... -/
def c3Queued : ClientState :=
  (sendFrames (List.replicate maxQueueSize "x") c3Connected).1

/-- ...the transport opens: the flush re-queues every frame because each
transmission raises... -/
def c3Opened : ClientState := (runStep (.wsOpen 0) c3Queued).1

/-- ...and one more failing `send` pushes the queue over capacity. -/
def c3Final : ClientState := (send (.str "y") c3Opened).1

/-- An open, heartbeat-armed state with last inbound traffic at time 0
(used to witness the staleness claim). -/
def c5State : ClientState :=
  { initialState with
      ws := some ⟨1, [], false⟩
      state := .opened
      heartbeatTimer := true
      lastInboundAt := 0 }

/-- An open state whose transport raises on every `send` (used to witness
the send-failure claim). -/
def c8State : ClientState := { initialState with ws := some ⟨1, [], true⟩ }

/-- The page origin of the C7 counterexample. -/
def c7Loc : Loc := ⟨"https:".data, "example.com".data⟩

/-- Environment of the C7 counterexample: no configured env URL, but a
https page origin that yields a perfectly usable inferred address. -/
def c7Env : JsEnv := ⟨[], some c7Loc, true, false, false⟩

end WsClient

namespace WsClient

/-! # Theorems -/

/-! ## Event dispatch (claims C9, C10) -/

/-- The `forEach` over the snapshot invokes exactly the snapshot, in order,
whatever the handlers do to the registry. -/
theorem emitGo_invoked {ε : Type} (behav : HandlerBehavior ε) :
    ∀ (rest : List ℕ) (reg : Registry), (emitGo behav rest reg).2.1 = rest
  | [], _ => rfl
  | h :: rest, reg => by
      simp only [emitGo]
      exact congrArg (h :: ·) (emitGo_invoked behav rest _)

/-- `emit` invokes exactly the handlers subscribed when dispatch began. -/
theorem emit_invoked {ε : Type} (behav : HandlerBehavior ε) (reg : Registry) :
    (emit behav reg).2.1 = reg := by
  unfold emit
  by_cases h : reg.isEmpty
  · rw [if_pos h]
    exact (List.isEmpty_iff.mp h).symm
  · rw [if_neg h]
    exact emitGo_invoked behav reg reg

/-- An exception raised by the handler `h` somewhere in the snapshot ends
up in the caught list: the dispatch loop catches it and continues. -/
theorem emitGo_caught_ne_nil {ε : Type} (behav : HandlerBehavior ε) (h : ℕ)
    (hthrow : ∀ r, ((behav h r).2).isSome = true) :
    ∀ (l₁ l₂ : List ℕ) (reg : Registry),
      (emitGo behav (l₁ ++ h :: l₂) reg).2.2 ≠ []
  | [], l₂, reg => by
      simp only [List.nil_append, emitGo]
      have hs := hthrow reg
      cases hb : (behav h reg).2 with
      | none => rw [hb] at hs; simp at hs
      | some e => simp [hb]
  | a :: l₁, l₂, reg => by
      simp only [List.cons_append, emitGo]
      have ih := emitGo_caught_ne_nil behav h hthrow l₁ l₂ (behav a reg).1
      cases hb : (behav a reg).2 with
      | none => simpa [hb] using ih
      | some e => simp [hb]

/-- C9: during a dispatch of an event, every handler that was subscribed at
the moment the dispatch began is invoked exactly once — even if handlers
unsubscribe themselves or others during the dispatch — because `emit`
iterates a snapshot of the handler set taken before invoking any
handler. -/
theorem c9_dispatch_invokes_snapshot_once {ε : Type}
    (behav : HandlerBehavior ε) (reg : Registry) (hnd : reg.Nodup) :
    ∀ h ∈ reg, ((emit behav reg).2.1).count h = 1 := by
  intro h hh
  rw [emit_invoked]
  exact List.count_eq_one_of_mem hnd hh

/-- Witness for C9: a dispatch over handlers `[0, 1, 2]` in which every
handler unsubscribes itself mid-dispatch still invokes handler `1` exactly
once. -/
theorem c9_dispatch_invokes_snapshot_once_witness :
    ((emit (fun h r => (r.erase h, (none : Option Unit))) [0, 1, 2]).2.1).count 1
      = 1 :=
  c9_dispatch_invokes_snapshot_once
    (fun h r => (r.erase h, (none : Option Unit))) [0, 1, 2] (by decide) 1
    (by decide)

/-- C10: if a subscribed handler throws during event dispatch, the
exception is caught inside `emit` (it is collected, never propagated to the
code that triggered the event — `emit` returns normally), and every
remaining handler of the snapshot is still invoked. -/
theorem c10_handler_throw_caught_all_invoked {ε : Type}
    (behav : HandlerBehavior ε) (l₁ l₂ : List ℕ) (h : ℕ)
    (hthrow : ∀ r, ((behav h r).2).isSome = true) :
    (emit behav (l₁ ++ h :: l₂)).2.1 = l₁ ++ h :: l₂ ∧
    (emit behav (l₁ ++ h :: l₂)).2.2 ≠ [] := by
  refine ⟨emit_invoked behav _, ?_⟩
  unfold emit
  have hne : (l₁ ++ h :: l₂).isEmpty = false := by cases l₁ <;> simp
  rw [if_neg (by simp [hne])]
  exact emitGo_caught_ne_nil behav h hthrow l₁ l₂ _

/-- Witness for C10: with three handlers where handler `1` always throws,
all of `[0, 1, 2]` are invoked and the exception is caught. -/
theorem c10_handler_throw_caught_all_invoked_witness :
    (emit (fun h r => if h == 1 then (r, some ()) else (r, none)) [0, 1, 2]).2.1
        = [0, 1, 2] ∧
    (emit (fun h r => if h == 1 then (r, some ()) else (r, none)) [0, 1, 2]).2.2
        ≠ [] :=
  c10_handler_throw_caught_all_invoked
    (fun h r => if h == 1 then (r, some ()) else (r, none)) [0] [2] 1
    (fun _ => rfl)

/-! ## Quiescence: states in which internal steps can do nothing
(claims C4 and C1) -/

/-- In a quiescent state every internal step is a no-op and emits
nothing. -/
theorem quiescent_runStep (st : ClientState) (hq : Quiescent st) (s : Step) :
    runStep s st = (st, []) := by
  obtain ⟨hrt, hhb, hws, hmock⟩ := hq
  cases s with
  | fireReconnect env => simp [runStep, fireReconnect, hrt]
  | heartbeat t => simp [runStep, heartbeatTick, hhb]
  | mockOpen =>
      cases hm : st.mockWs with
      | none => simp [runStep, mockOpenFire, hm]
      | some m => simp [runStep, mockOpenFire, hm, (hmock m hm).1]
  | mockEcho =>
      cases hm : st.mockWs with
      | none => simp [runStep, mockEchoFire, hm]
      | some m => simp [runStep, mockEchoFire, hm, (hmock m hm).2]
  | wsOpen t => simp [runStep, wsOnOpen, hws]
  | wsClose code => simp [runStep, wsOnClose, hws]
  | wsError => simp [runStep, wsOnError, hws]
  | wsMessage data t => simp [runStep, wsOnMessage, hws]

/-- In a quiescent state every sequence of internal steps is a no-op and
emits nothing. -/
theorem quiescent_runSteps (st : ClientState) (hq : Quiescent st) :
    ∀ steps : List Step, runSteps steps st = (st, [])
  | [] => rfl
  | s :: rest => by
      simp [runSteps, quiescent_runStep st hq s,
        quiescent_runSteps st hq rest]

/-- After `disconnect()` the reconnect timer and heartbeat are cancelled,
both socket references are gone, the explicit-disconnect flag is set and
auto-reconnect is off. -/
theorem disconnect_fields (st : ClientState) :
    (disconnect st).1.ws = none ∧ (disconnect st).1.mockWs = none ∧
    (disconnect st).1.reconnectTimer = false ∧
    (disconnect st).1.heartbeatTimer = false ∧
    (disconnect st).1.explicitlyDisconnected = true ∧
    (disconnect st).1.shouldReconnect = false := by
  unfold disconnect cleanupSocketRefs
  cases hws : st.ws <;> cases hm : st.mockWs <;> simp [hws, hm]

/-- C4: after `disconnect()` returns, no `open` event (indeed no event at
all) is emitted by any subsequent internal step — timer firing or transport
callback — regardless of how many fire, until a new `connect()` call: the
explicit-disconnect flag is set (so `scheduleReconnect` is a no-op) and the
pending reconnect timer and heartbeat are cancelled synchronously by
`disconnect` itself. -/
theorem c4_disconnect_suppresses_open (st : ClientState) (steps : List Step) :
    (disconnect st).1.explicitlyDisconnected = true ∧
    (disconnect st).1.reconnectTimer = false ∧
    (disconnect st).1.heartbeatTimer = false ∧
    scheduleReconnect (disconnect st).1 = (disconnect st).1 ∧
    runSteps steps (disconnect st).1 = ((disconnect st).1, []) := by
  obtain ⟨hws, hm, hrt, hhb, hex, hsr⟩ := disconnect_fields st
  refine ⟨hex, hrt, hhb, ?_, ?_⟩
  · simp [scheduleReconnect, hsr]
  · exact quiescent_runSteps _ ⟨hrt, hhb, hws, fun m hmm => by
      rw [hm] at hmm; exact absurd hmm (by simp)⟩ steps

/-! ## C1: the mock-mode queue scenario -/

/-- C1 [evidence of the code defect]: in the scenario "`connect()` with no
destination, then two `send()` calls before the simulated mock open
completes", both frames are queued as the claim says; but once the mock
open fires (emitting `open {isMock:true}`), no `message` echo is ever
produced for them: `flushQueue` is only invoked from the real socket's
`onopen`, nothing flushes the queue on a mock open, and the two frames stay
queued forever — every further internal step is a no-op. -/
theorem c1_mock_open_never_flushes_queue :
    c1State2.outboundQueue = ["a", "b"] ∧
    c1Run.2.filter Ev.isOpenEv = [Ev.evOpen true] ∧
    c1Run.2.filter Ev.isMessageEv = [] ∧
    c1Run.1.outboundQueue = ["a", "b"] ∧
    ∀ steps : List Step, runSteps steps c1Run.1 = (c1Run.1, []) := by
  refine ⟨rfl, rfl, rfl, rfl, ?_⟩
  exact quiescent_runSteps _ ⟨rfl, rfl, rfl, fun m hm => by
    cases Option.some.inj hm; exact ⟨rfl, rfl⟩⟩

/-! ## C6: reconnect backoff jitter bounds -/

/-- Every reconnect base delay is a multiple of four (both `20000` and
`500 * 2^n` are). -/
theorem four_dvd_reconnectBase (n : ℕ) : 4 ∣ reconnectBase n := by
  unfold reconnectBase reconnectInitialMs reconnectMaxMs
  rcases le_total (20000 : ℕ) (500 * 2 ^ n) with h | h
  · rw [min_eq_left h]; decide
  · rw [min_eq_right h]
    exact Dvd.dvd.mul_right (by norm_num) _

/-- For a base delay `4k` and jitter ratio `1/4`, the jittered delay lands
in `[3k, 5k]` for every random draw in `[0, 1)`. -/
theorem jitterDelay_quarter_bounds (k : ℕ) (rand : ℚ)
    (h0 : 0 ≤ rand) (h1 : rand < 1) :
    (3 * k : ℚ) ≤ (jitterDelay (4 * k : ℚ) (1 / 4) rand : ℤ) ∧
    ((jitterDelay (4 * k : ℚ) (1 / 4) rand : ℤ) : ℚ) ≤ 5 * k ∧
    0 ≤ jitterDelay (4 * k : ℚ) (1 / 4) rand := by
  have hk : (0 : ℚ) ≤ (k : ℚ) := by positivity
  have h2k : (0 : ℚ) ≤ 2 * (k : ℚ) := by positivity
  have hprod0 : (0 : ℚ) ≤ rand * (2 * k) := mul_nonneg h0 h2k
  have hprod1 : rand * (2 * (k : ℚ)) ≤ 1 * (2 * k) :=
    mul_le_mul_of_nonneg_right h1.le h2k
  have hclamp : max (0 : ℚ) (min 1 (1 / 4)) = 1 / 4 := by norm_num
  have harg : (4 * (k : ℚ) - 4 * k * (1 / 4)) + rand *
      ((4 * (k : ℚ) + 4 * k * (1 / 4)) - (4 * (k : ℚ) - 4 * k * (1 / 4)))
      = 3 * k + rand * (2 * k) := by ring
  have hlo : ((3 * k : ℕ) : ℤ) ≤ round (3 * (k : ℚ) + rand * (2 * k)) := by
    rw [round_eq]
    apply Int.le_floor.mpr
    push_cast
    linarith
  have hhi : round (3 * (k : ℚ) + rand * (2 * k)) ≤ ((5 * k : ℕ) : ℤ) := by
    rw [round_eq]
    have hflt : ⌊3 * (k : ℚ) + rand * (2 * k) + 1 / 2⌋ < ((5 * k : ℕ) : ℤ) + 1 := by
      apply Int.floor_lt.mpr
      push_cast
      linarith
    omega
  have hjd : jitterDelay (4 * k : ℚ) (1 / 4) rand
      = round (3 * (k : ℚ) + rand * (2 * k)) := by
    unfold jitterDelay
    dsimp only
    rw [hclamp, harg]
    refine max_eq_right ?_
    calc (0 : ℤ) ≤ ((3 * k : ℕ) : ℤ) := by positivity
    _ ≤ _ := hlo
  rw [hjd]
  refine ⟨?_, ?_, ?_⟩
  · calc (3 * (k : ℚ)) = (((3 * k : ℕ) : ℤ) : ℚ) := by push_cast; ring
    _ ≤ _ := by exact_mod_cast hlo
  · calc ((round (3 * (k : ℚ) + rand * (2 * k)) : ℤ) : ℚ)
        ≤ (((5 * k : ℕ) : ℤ) : ℚ) := by exact_mod_cast hhi
    _ = 5 * k := by push_cast; ring
  · calc (0 : ℤ) ≤ ((3 * k : ℕ) : ℤ) := by positivity
    _ ≤ _ := hlo

/-- C6: for every reconnect attempt `n` and every value of the random
source in `[0, 1)`, the delay computed by `jitterDelay` on
`base = min(reconnectMaxMs, reconnectInitialMs * 2^n)` with the configured
jitter ratio lies within `[base*(1-jitterRatio), base*(1+jitterRatio)]` and
is non-negative. -/
theorem c6_reconnect_delay_in_jitter_bounds (n : ℕ) (rand : ℚ)
    (h0 : 0 ≤ rand) (h1 : rand < 1) :
    ((reconnectBase n : ℚ) * (1 - reconnectJitterRatio) ≤
      ((jitterDelay (reconnectBase n : ℚ) reconnectJitterRatio rand : ℤ) : ℚ)) ∧
    (((jitterDelay (reconnectBase n : ℚ) reconnectJitterRatio rand : ℤ) : ℚ) ≤
      (reconnectBase n : ℚ) * (1 + reconnectJitterRatio)) ∧
    0 ≤ jitterDelay (reconnectBase n : ℚ) reconnectJitterRatio rand := by
  obtain ⟨k, hk⟩ := four_dvd_reconnectBase n
  have hbase : ((reconnectBase n : ℕ) : ℚ) = 4 * (k : ℚ) := by
    rw [hk]; push_cast; ring
  have hratio : reconnectJitterRatio = 1 / 4 := rfl
  obtain ⟨hlo, hhi, hnn⟩ := jitterDelay_quarter_bounds k rand h0 h1
  rw [hratio, hbase]
  refine ⟨?_, ?_, hnn⟩
  · calc 4 * (k : ℚ) * (1 - 1 / 4) = 3 * k := by ring
    _ ≤ _ := hlo
  · calc ((jitterDelay (4 * k : ℚ) (1 / 4) rand : ℤ) : ℚ) ≤ 5 * k := hhi
    _ = 4 * (k : ℚ) * (1 + 1 / 4) := by ring

/-- Witness for C6 at attempt `0` and random draw `1/2`: the delay is in
`[375, 625]`. -/
theorem c6_reconnect_delay_in_jitter_bounds_witness :
    ((reconnectBase 0 : ℚ) * (1 - reconnectJitterRatio) ≤
      ((jitterDelay (reconnectBase 0 : ℚ) reconnectJitterRatio (1 / 2) : ℤ) : ℚ)) ∧
    (((jitterDelay (reconnectBase 0 : ℚ) reconnectJitterRatio (1 / 2) : ℤ) : ℚ) ≤
      (reconnectBase 0 : ℚ) * (1 + reconnectJitterRatio)) ∧
    0 ≤ jitterDelay (reconnectBase 0 : ℚ) reconnectJitterRatio (1 / 2) :=
  c6_reconnect_delay_in_jitter_bounds 0 (1 / 2) (by norm_num) (by norm_num)

/-! ## Outbound queue lemmas (claims C2, C3, C8) -/

/-- When the transport is not open, `sendFrame` only enqueues. -/
theorem sendFrame_not_open (st : ClientState) (f : String)
    (h : isOpenForSend st = false) :
    sendFrame f st
      = ({ st with outboundQueue := enqueueFrame st.outboundQueue f }, []) := by
  simp [sendFrame, h]

/-- A `connecting` state is not open for sending. -/
theorem connectingState_not_open (s0 q0 : List String) :
    isOpenForSend (connectingState s0 q0) = false := rfl

/-- While connecting, a batch of sends only accumulates the queue. -/
theorem sendFrames_connecting (msgs : List String) :
    ∀ (s0 q0 : List String),
      sendFrames msgs (connectingState s0 q0)
        = (connectingState s0 (msgs.foldl enqueueFrame q0), []) := by
  induction msgs with
  | nil => intro s0 q0; rfl
  | cons m rest ih =>
      intro s0 q0
      have hstep : sendFrame m (connectingState s0 q0)
          = (connectingState s0 (enqueueFrame q0 m), ([] : List Ev)) := rfl
      rw [sendFrames, hstep]
      dsimp only
      rw [ih s0 (enqueueFrame q0 m)]
      rfl

/-- One enqueue keeps the queue an in-order sublist of "old queue then new
frame": the capacity trim only drops a prefix. -/
theorem enqueueFrame_sublist (q0 : List String) (m : String) :
    List.Sublist (enqueueFrame q0 m) (q0 ++ [m]) := by
  unfold enqueueFrame
  split
  · exact (List.drop_sublist _ _).append (List.Sublist.refl [m])
  · exact List.Sublist.refl _

/-- Accumulated sends leave the queue an in-order sublist of the submission
sequence appended to the initial queue. -/
theorem foldl_enqueue_sublist :
    ∀ (msgs q0 : List String),
      List.Sublist (msgs.foldl enqueueFrame q0) (q0 ++ msgs)
  | [], q0 => by simp
  | m :: rest, q0 => by
      have h1 := foldl_enqueue_sublist rest (enqueueFrame q0 m)
      have h2 : List.Sublist (enqueueFrame q0 m ++ rest) ((q0 ++ [m]) ++ rest) :=
        (enqueueFrame_sublist q0 m).append (List.Sublist.refl rest)
      have h3 : (q0 ++ [m]) ++ rest = q0 ++ m :: rest := by simp
      rw [List.foldl_cons]
      rw [h3] at h2
      exact h1.trans h2

/-- While the total number of frames stays within capacity, no enqueue ever
trims: the queue is exactly the submission sequence. -/
theorem foldl_enqueue_of_le :
    ∀ (msgs q0 : List String), (q0 ++ msgs).length ≤ maxQueueSize →
      msgs.foldl enqueueFrame q0 = q0 ++ msgs
  | [], q0, _ => by simp
  | m :: rest, q0, h => by
      have hlen : q0.length < maxQueueSize := by
        simp [List.length_append] at h; omega
      have he : enqueueFrame q0 m = q0 ++ [m] := by
        unfold enqueueFrame
        rw [if_neg (by omega)]
      rw [List.foldl_cons, he,
        foldl_enqueue_of_le rest (q0 ++ [m]) (by simpa using h)]
      simp

/-- With an open, non-raising transport, a batch of sends hands every frame
to the transport in order and emits nothing. -/
theorem sendFrames_open_ok :
    ∀ (frames : List String) (st : ClientState) (w : RealSock),
      st.ws = some w → w.readyState = 1 → w.sendThrows = false →
      sendFrames frames st
        = ({ st with ws := some { w with sent := w.sent ++ frames } }, []) := by
  intro frames
  induction frames with
  | nil =>
      intro st w hw _ _
      cases st
      cases hw
      simp [sendFrames]
  | cons f rest ih =>
      intro st w hw hrs hnt
      have hopen : isOpenForSend st = true := by
        simp [isOpenForSend, hw, hrs]
      have hsf : sendFrame f st
          = ({ st with ws := some { w with sent := w.sent ++ [f] } }, []) := by
        simp [sendFrame, hopen, hw, hnt]
      rw [sendFrames, hsf]
      rw [ih ({ st with ws := some { w with sent := w.sent ++ [f] } })
        { w with sent := w.sent ++ [f] } rfl hrs hnt]
      simp

/-- The transport-open transition reduces to one `flushQueue` run on the
opened state. -/
theorem wsOnOpen_connecting (s0 Q : List String) (t : ℕ) :
    wsOnOpen t (connectingState s0 Q)
      = ((flushQueue (openedState s0 Q t)).1,
         [Ev.evStatus .opened false, Ev.evOpen false]
           ++ (flushQueue (openedState s0 Q t)).2) := rfl

/-- Flushing the opened state hands every queued frame to the transport in
order, exactly once, and clears the queue. -/
theorem flushQueue_openedState (s0 Q : List String) (t : ℕ) :
    flushQueue (openedState s0 Q t) = (openedState (s0 ++ Q) [] t, []) := by
  cases Q with
  | nil => simp [flushQueue, openedState]
  | cons a as =>
      have hne : (openedState s0 (a :: as) t).outboundQueue.isEmpty = false := rfl
      have hclr : ({ openedState s0 (a :: as) t with outboundQueue := [] }
          : ClientState) = openedState s0 [] t := rfl
      rw [flushQueue]
      rw [if_neg (by simp [hne])]
      rw [hclr]
      have hq : (openedState s0 (a :: as) t).outboundQueue = a :: as := rfl
      rw [hq]
      rw [sendFrames_open_ok (a :: as) (openedState s0 [] t) ⟨1, s0, false⟩ rfl rfl rfl]
      rfl

/-- C2: every frame submitted while the transport was not open sits in the
queue in submission order (an in-order sublist of the submission sequence;
equal to it whenever the total stays within capacity), and the transition
into `Open` flushes exactly that queue into the transport, in order, exactly
once, leaving the queue empty. -/
theorem c2_flush_on_open_in_order (s0 q0 msgs : List String) (t : ℕ) :
    List.Sublist (sendFrames msgs (connectingState s0 q0)).1.outboundQueue
      (q0 ++ msgs) ∧
    (wsOnOpen t (sendFrames msgs (connectingState s0 q0)).1).1.ws
      = some ⟨1, s0 ++ (sendFrames msgs (connectingState s0 q0)).1.outboundQueue,
          false⟩ ∧
    (wsOnOpen t (sendFrames msgs (connectingState s0 q0)).1).1.outboundQueue
      = [] ∧
    ((q0 ++ msgs).length ≤ maxQueueSize →
      (sendFrames msgs (connectingState s0 q0)).1.outboundQueue = q0 ++ msgs) := by
  have h1 : (sendFrames msgs (connectingState s0 q0)).1
      = connectingState s0 (msgs.foldl enqueueFrame q0) := by
    rw [sendFrames_connecting msgs s0 q0]
  have hq : (connectingState s0 (msgs.foldl enqueueFrame q0)).outboundQueue
      = msgs.foldl enqueueFrame q0 := rfl
  rw [h1, hq]
  have h2 : wsOnOpen t (connectingState s0 (msgs.foldl enqueueFrame q0))
      = (openedState (s0 ++ msgs.foldl enqueueFrame q0) [] t,
         [Ev.evStatus .opened false, Ev.evOpen false] ++ []) := by
    rw [wsOnOpen_connecting, flushQueue_openedState]
  rw [h2]
  exact ⟨foldl_enqueue_sublist msgs q0, rfl, rfl,
    fun h => foldl_enqueue_of_le msgs q0 h⟩

/-- Witness for C2: two frames sent while connecting are flushed to the
transport, in order, on open. -/
theorem c2_flush_on_open_in_order_witness :
    List.Sublist (sendFrames ["a", "b"] (connectingState [] [])).1.outboundQueue
      ([] ++ ["a", "b"]) ∧
    (wsOnOpen 7 (sendFrames ["a", "b"] (connectingState [] [])).1).1.ws
      = some ⟨1, [] ++ (sendFrames ["a", "b"] (connectingState [] [])).1.outboundQueue,
          false⟩ ∧
    (wsOnOpen 7 (sendFrames ["a", "b"] (connectingState [] [])).1).1.outboundQueue
      = [] ∧
    (([] ++ ["a", "b"] : List String).length ≤ maxQueueSize →
      (sendFrames ["a", "b"] (connectingState [] [])).1.outboundQueue
        = [] ++ ["a", "b"]) :=
  c2_flush_on_open_in_order [] [] ["a", "b"] 7

set_option maxRecDepth 8000 in
/-- Counterexample to C3 as stated: a reachable state (connect to a
configured destination whose transport accepts but raises on every `send`,
queue `maxQueueSize` frames while connecting, open — the flush re-queues
all of them through the failure path — then one more failing send) in which
the queue holds 201 frames: the send-failure re-queue (line 302) appends
without the capacity check, so the queue length exceeds `maxQueueSize`. -/
theorem c3_failure_requeue_exceeds_capacity :
    c3Final.outboundQueue.length = 201 ∧ maxQueueSize < c3Final.outboundQueue.length := by
  constructor
  · rfl
  · rw [show c3Final.outboundQueue.length = 201 from rfl]
    decide

/-- C3 (amended): the capacity invariant holds for the queueing path of
`sendFrame` — an enqueue performed while the transport is not open never
raises the queue length above `maxQueueSize`, retains the newest frame
last, and, when the queue is already exactly at capacity, drops the oldest
20% (`maxQueueSize / 5` entries) before admitting the new frame.  (The
send-failure re-queue path appends without this check; see the
counterexample.) -/
theorem c3_queue_capacity_invariant (st : ClientState) (f : String)
    (hopen : isOpenForSend st = false)
    (hlen : st.outboundQueue.length ≤ maxQueueSize) :
    (sendFrame f st).1.outboundQueue.length ≤ maxQueueSize ∧
    (sendFrame f st).1.outboundQueue.getLast? = some f ∧
    (st.outboundQueue.length = maxQueueSize →
      (sendFrame f st).1.outboundQueue
        = st.outboundQueue.drop (maxQueueSize / 5) ++ [f]) := by
  rw [sendFrame_not_open st f hopen]
  have hq : ({ st with outboundQueue := enqueueFrame st.outboundQueue f }
      : ClientState).outboundQueue = enqueueFrame st.outboundQueue f := rfl
  rw [hq]
  unfold enqueueFrame
  refine ⟨?_, ?_, ?_⟩
  · split
    · rename_i hge
      have : maxQueueSize ≤ st.outboundQueue.length := hge
      simp only [List.length_append, List.length_drop, List.length_singleton]
      unfold maxQueueSize at this hlen ⊢
      omega
    · rename_i hlt
      have : ¬ maxQueueSize ≤ st.outboundQueue.length := hlt
      simp only [List.length_append, List.length_singleton]
      omega
  · split <;> simp
  · intro hcap
    rw [if_pos (le_of_eq hcap.symm), hcap]
    rfl

/-- Witness for C3 (amended) at the empty initial queue. -/
theorem c3_queue_capacity_invariant_witness :
    (sendFrame "z" initialState).1.outboundQueue.length ≤ maxQueueSize ∧
    (sendFrame "z" initialState).1.outboundQueue.getLast? = some "z" ∧
    (initialState.outboundQueue.length = maxQueueSize →
      (sendFrame "z" initialState).1.outboundQueue
        = initialState.outboundQueue.drop (maxQueueSize / 5) ++ ["z"]) :=
  c3_queue_capacity_invariant initialState "z" rfl (by decide)

/-! ## C8: `send` never throws; failures become `error` events -/

/-- C8: `send` is a total function of the caller's message — every raising
primitive in its body (`JSON.stringify`, the transport's `send`) is run
under `try`/`catch`, so no exception reaches the caller.  A serialization
exception is converted into a `serializeFailure` `error` event with the
state untouched; a transmission exception on an open transport emits a
`sendFailure` `error` event and re-queues the frame instead of discarding
it. -/
theorem c8_send_failures_error_and_requeue (st : ClientState) (e : Unit)
    (s : String) (w : RealSock) (hw : st.ws = some w)
    (hrs : w.readyState = 1) (hthrows : w.sendThrows = true) :
    send (.obj (.error e)) st
      = (st, [Ev.evError .serializeFailure st.mockWs.isSome]) ∧
    send (.str s) st
      = ({ st with outboundQueue := st.outboundQueue ++ [s] },
         [Ev.evError .sendFailure st.mockWs.isSome]) := by
  refine ⟨rfl, ?_⟩
  have hopen : isOpenForSend st = true := by
    simp [isOpenForSend, hw, hrs]
  simp [send, sendFrame, hopen, hw, hthrows]

/-- Witness for C8: on an open transport whose `send` raises, a string
frame is re-queued with an `error` event, and an unserializable object
yields only an `error` event. -/
theorem c8_send_failures_error_and_requeue_witness :
    send (.obj (.error ())) c8State
      = (c8State, [Ev.evError .serializeFailure c8State.mockWs.isSome]) ∧
    send (.str "f") c8State
      = ({ c8State with outboundQueue := c8State.outboundQueue ++ ["f"] },
         [Ev.evError .sendFailure c8State.mockWs.isSome]) :=
  c8_send_failures_error_and_requeue c8State () "f" ⟨1, [], true⟩ rfl rfl rfl

/-! ## C5: heartbeat staleness -/

/-- C5: while `Open`, if at a heartbeat tick the elapsed time since the
last inbound frame exceeds `staleThresholdMs`, exactly one staleness
`error` event fires for that episode and the transport is force-closed
(`readyState` moves to CLOSING, so every further tick before the transport's
`close` callback emits nothing and is a no-op); the subsequent normal close
handling then arms the reconnect timer when reconnection is eligible. -/
theorem c5_stale_heartbeat_one_error_then_reconnect (st : ClientState)
    (w : RealSock) (t : ℕ)
    (hhb : st.heartbeatTimer = true)
    (hw : st.ws = some w) (hrs : w.readyState = 1) (hnt : w.sendThrows = false)
    (hstale : staleThresholdMs < t - st.lastInboundAt)
    (hexp : st.explicitlyDisconnected = false)
    (hrec : st.shouldReconnect = true) :
    ((heartbeatTick t st).2.filter Ev.isStaleErrorEv).length = 1 ∧
    (heartbeatTick t st).1.ws = some ⟨2, w.sent ++ [pingFrame t], false⟩ ∧
    (∀ t', heartbeatTick t' (heartbeatTick t st).1
      = ((heartbeatTick t st).1, [])) ∧
    (wsOnClose 4000 (heartbeatTick t st).1).1.reconnectTimer = true ∧
    (wsOnClose 4000 (heartbeatTick t st).1).1.state = ConnState.closed := by
  have hopen : isOpenForSend st = true := by
    simp [isOpenForSend, hw, hrs]
  have hping : sendFrame (pingFrame t) st
      = ({ st with ws := some { w with sent := w.sent ++ [pingFrame t] } }, []) := by
    simp [sendFrame, hopen, hw, hnt]
  have htick : heartbeatTick t st
      = ({ st with ws := some ⟨2, w.sent ++ [pingFrame t], false⟩ },
         [Ev.evError .staleConnection false]) := by
    rw [heartbeatTick]
    rw [if_neg (by simp [hhb])]
    have hio : (match st.ws with
        | some w => w.readyState == 1
        | none => false) = true := by simp [hw, hrs]
    rw [if_pos (by simp [hio])]
    rw [hping]
    rw [if_pos (by simpa using hstale)]
    have hws2 : ({ st with ws := some { w with sent := w.sent ++ [pingFrame t] } }
        : ClientState).ws = some { w with sent := w.sent ++ [pingFrame t] } := rfl
    simp only [hws2, hrs, hnt]
    have : ({ w with sent := w.sent ++ [pingFrame t] } : RealSock).readyState = 1 := hrs
    simp [this, hrs]
  rw [htick]
  have hfields : ({ st with ws := some ⟨2, w.sent ++ [pingFrame t], false⟩ }
      : ClientState).ws = some ⟨2, w.sent ++ [pingFrame t], false⟩ := rfl
  refine ⟨rfl, rfl, ?_, ?_⟩
  · intro t'
    rw [heartbeatTick]
    rw [if_neg (by simpa using hhb)]
    rw [if_neg (by simp [hfields])]
  · simp [wsOnClose, hfields, clearHeartbeatTimer, scheduleReconnect, hexp, hrec]

/-- Witness for C5: last inbound at time 0, tick at `45001 > 45000`. -/
theorem c5_stale_heartbeat_one_error_then_reconnect_witness :
    ((heartbeatTick 45001 c5State).2.filter Ev.isStaleErrorEv).length = 1 ∧
    (heartbeatTick 45001 c5State).1.ws
      = some ⟨2, [] ++ [pingFrame 45001], false⟩ ∧
    (∀ t', heartbeatTick t' (heartbeatTick 45001 c5State).1
      = ((heartbeatTick 45001 c5State).1, [])) ∧
    (wsOnClose 4000 (heartbeatTick 45001 c5State).1).1.reconnectTimer = true ∧
    (wsOnClose 4000 (heartbeatTick 45001 c5State).1).1.state = ConnState.closed :=
  c5_stale_heartbeat_one_error_then_reconnect c5State ⟨1, [], false⟩ 45001
    rfl rfl rfl rfl (by decide) rfl rfl

/-! ## C7: destination resolution -/

/-- `cleanupSocketRefs` touches only the socket references. -/
theorem cleanupSocketRefs_preserves (st : ClientState) :
    (cleanupSocketRefs st).1.state = st.state ∧
    (cleanupSocketRefs st).1.lastUrl = st.lastUrl := by
  unfold cleanupSocketRefs
  cases hm : st.mockWs <;> simp

/-- `scheduleReconnect` touches only the reconnect timer. -/
theorem scheduleReconnect_preserves (st : ClientState) :
    (scheduleReconnect st).state = st.state ∧
    (scheduleReconnect st).lastUrl = st.lastUrl := by
  unfold scheduleReconnect
  split <;> simp

/-- An explicitly configured `http://` address is normalized to `ws://`. -/
theorem resolveFromRaw_http (rest : Chars) (wloc : Option Loc) :
    resolveFromRaw ("http://".data ++ rest) wloc
      = stripTrailingSlashes ("ws://".data ++ rest) := rfl

/-- An explicitly configured `https://` address is normalized to `wss://`. -/
theorem resolveFromRaw_https (rest : Chars) (wloc : Option Loc) :
    resolveFromRaw ("https://".data ++ rest) wloc
      = stripTrailingSlashes ("wss://".data ++ rest) := rfl

/-- An explicitly configured `ws://` address is kept. -/
theorem resolveFromRaw_ws (rest : Chars) (wloc : Option Loc) :
    resolveFromRaw ("ws://".data ++ rest) wloc
      = stripTrailingSlashes ("ws://".data ++ rest) := rfl

/-- An explicitly configured `wss://` address is kept. -/
theorem resolveFromRaw_wss (rest : Chars) (wloc : Option Loc) :
    resolveFromRaw ("wss://".data ++ rest) wloc
      = stripTrailingSlashes ("wss://".data ++ rest) := rfl

/-- A bare `host:port` address defaults to `ws://`. -/
theorem resolveFromRaw_bare (raw : Chars) (wloc : Option Loc)
    (hne : raw ≠ [])
    (h1 : (charsStartsWith "ws://".data raw
        || charsStartsWith "wss://".data raw) = false)
    (h2 : charsStartsWith "http://".data raw = false)
    (h3 : charsStartsWith "https://".data raw = false)
    (h4 : isBareHostPort raw = true) :
    resolveFromRaw raw wloc = stripTrailingSlashes ("ws://".data ++ raw) := by
  unfold resolveFromRaw
  rw [if_pos hne, h1, h2, h3, h4]
  simp

/-- Counterexample to C7 as stated: with no configured env URL but a https
page origin, the origin-inferred address `wss://example.com` is perfectly
usable, yet `internalConnect` goes to Mock mode — the inferred address is
never used for a real connection, because the mock test
`!canUseReal || !hasConfiguredUrl` (line 414) falls back to Mock whenever
`REACT_APP_WS_URL` is unset. -/
theorem c7_origin_inferred_still_mock :
    resolveWsBaseUrlFromEnv c7Env.envUrl c7Env.wloc = "wss://example.com".data ∧
    resolveWsBaseUrlFromEnv c7Env.envUrl c7Env.wloc ≠ [] ∧
    c7Env.hasWS = true ∧
    (internalConnect c7Env ⟨[], none⟩ initialState).1.state = ConnState.mock ∧
    (internalConnect c7Env ⟨[], none⟩ initialState).1.mockWs.isSome = true := by
  refine ⟨rfl, ?_, rfl, rfl, rfl⟩
  intro h
  exact absurd (congrArg List.length h) (by decide)

/-- C7 (amended): destination resolution.  (a) An explicitly configured
address is normalized: `http→ws`, `https→wss`, `ws`/`wss` kept, bare
`host:port` prefixed with `ws://`.  (b) With no configured address an
origin-inferred address is still computed and recorded as the URL, but it
is never used for a real connection: the client falls back to Mock whenever
no explicit address is configured — as well as (c) when network support is
unavailable or no usable address exists. -/
theorem c7_destination_resolution (env : JsEnv) (options : ConnectOptions)
    (st : ClientState) :
    ((internalConnect env options st).1.state = ConnState.mock ↔
      (trimChars env.envUrl = [] ∨ env.hasWS = false ∨
        joinUrl (resolveWsBaseUrlFromEnv env.envUrl env.wloc) options.path = [])) ∧
    ((internalConnect env options st).1.lastUrl
      = joinUrl (resolveWsBaseUrlFromEnv env.envUrl env.wloc) options.path) ∧
    (∀ rest : Chars, resolveFromRaw ("http://".data ++ rest) env.wloc
      = stripTrailingSlashes ("ws://".data ++ rest)) ∧
    (∀ rest : Chars, resolveFromRaw ("https://".data ++ rest) env.wloc
      = stripTrailingSlashes ("wss://".data ++ rest)) ∧
    (∀ rest : Chars, resolveFromRaw ("ws://".data ++ rest) env.wloc
      = stripTrailingSlashes ("ws://".data ++ rest)) ∧
    (∀ rest : Chars, resolveFromRaw ("wss://".data ++ rest) env.wloc
      = stripTrailingSlashes ("wss://".data ++ rest)) ∧
    (∀ raw : Chars, raw ≠ [] →
      (charsStartsWith "ws://".data raw
        || charsStartsWith "wss://".data raw) = false →
      charsStartsWith "http://".data raw = false →
      charsStartsWith "https://".data raw = false →
      isBareHostPort raw = true →
      resolveFromRaw raw env.wloc = stripTrailingSlashes ("ws://".data ++ raw)) := by
  refine ⟨?_, ?_, fun rest => resolveFromRaw_http rest env.wloc,
    fun rest => resolveFromRaw_https rest env.wloc,
    fun rest => resolveFromRaw_ws rest env.wloc,
    fun rest => resolveFromRaw_wss rest env.wloc,
    fun raw hne h1 h2 h3 h4 => resolveFromRaw_bare raw env.wloc hne h1 h2 h3 h4⟩
  · unfold internalConnect
    by_cases hconf : trimChars env.envUrl = [] <;>
      by_cases hws : env.hasWS = true <;>
        by_cases hurl : joinUrl (resolveWsBaseUrlFromEnv env.envUrl env.wloc)
          options.path = [] <;>
      cases hctor : env.wsCtorThrows <;>
        simp [hconf, hws, hurl, hctor, cleanupSocketRefs_preserves,
          scheduleReconnect_preserves, clearHeartbeatTimer, Bool.not_eq_true]
  · unfold internalConnect
    by_cases hconf : trimChars env.envUrl = [] <;>
      by_cases hws : env.hasWS = true <;>
        by_cases hurl : joinUrl (resolveWsBaseUrlFromEnv env.envUrl env.wloc)
          options.path = [] <;>
      cases hctor : env.wsCtorThrows <;>
        simp [hconf, hws, hurl, hctor, cleanupSocketRefs_preserves,
          scheduleReconnect_preserves, clearHeartbeatTimer, Bool.not_eq_true]

/-- Witness for C7 (amended): the bare-host branch on `h:90`. -/
theorem c7_destination_resolution_witness :
    resolveFromRaw "h:90".data c7Env.wloc
      = stripTrailingSlashes ("ws://".data ++ "h:90".data) :=
  (c7_destination_resolution c7Env ⟨[], none⟩ initialState).2.2.2.2.2.2
    "h:90".data (by decide) (by decide) (by decide) (by decide) (by decide)

end WsClient
